import Mathlib

/-!
Verification of `packages/cli/src/lib/new/preparation/loadConfig.ts` and of
the `gitlab:issues:create` scaffolder action (known here through its test
suite and the specification).

The TypeScript code is shallowly embedded: JSON values become an inductive
type, the zod schema `pkgJsonWithNewConfigSchema` becomes an executable
validator collecting schema violations, and object spread becomes an
explicit record-merge function on association lists.
-/

/-- A JSON value, as produced by `fs.readJson`.  Numbers are modelled as
integers (the manifest fields the loader inspects are strings, booleans and
integers). Objects are association lists in insertion order, as JavaScript
objects after `JSON.parse` (keys are distinct there, but no such assumption
is baked into the model). -/
inductive Json where
  | str (s : String)
  | num (n : Int)
  | bool (b : Bool)
  | null
  | arr (elems : List Json)
  | obj (fields : List (String × Json))

/-- Whether a JSON value is a primitive admissible in `globals`: a string,
a number or a boolean. -/
def Json.isPrim : Json → Bool
  | .str _ => true
  | .num _ => true
  | .bool _ => true
  | _ => false

/-- A value admissible in `backstage.new.globals`:
`z.union([z.string(), z.number(), z.boolean()])`. -/
inductive GlobalValue where
  | str (s : String)
  | num (n : Int)
  | bool (b : Bool)
deriving DecidableEq, Repr

/-- An entry of `backstage.new.templates`: `{ id: string, target: string }`. -/
structure TemplatePointer where
  id : String
  target : String
deriving DecidableEq, Repr

/-- The parsed `backstage.new` block of the manifest. -/
structure NewBlock where
  templates : Option (List TemplatePointer)
  globals : Option (List (String × GlobalValue))
deriving DecidableEq, Repr

/-- A single schema violation reported by validation, standing for one zod
issue. -/
inductive SchemaViolation where
  | expectedObject
  | expectedArray
  | expectedString (key : String)
  | missingKey (key : String)
  | unrecognizedKey (key : String)
  | invalidGlobalValue (key : String)
deriving DecidableEq, Repr

/-- Validation result: either a value or the list of schema violations. -/
abbrev VE (α : Type) := Except (List SchemaViolation) α

/-- Combine two validation results, accumulating violations from both sides
as zod does. -/
def veMap2 {α β γ : Type} (f : α → β → γ) : VE α → VE β → VE γ
  | .ok a, .ok b => .ok (f a b)
  | .error e, .ok _ => .error e
  | .ok _, .error e => .error e
  | .error e, .error f => .error (e ++ f)

/-- Property lookup in a JSON object: the value of the first field with the
given key. -/
def lookupJson : List (String × Json) → String → Option Json
  | [], _ => none
  | p :: r, k => if p.1 = k then some p.2 else lookupJson r k

/-- The `.strict()` part of a zod object schema: every key of the object
must be among the declared ones. -/
def strictKeys (allowed : List String) (fields : List (String × Json)) : VE Unit :=
  let bad := fields.filter (fun p => !(allowed.contains p.1))
  if bad.isEmpty then .ok ()
  else .error (bad.map (fun p => .unrecognizedKey p.1))

/-- A required `z.string()` field of an object. -/
def checkStringField (fields : List (String × Json)) (key : String) : VE String :=
  match lookupJson fields key with
  | some (.str s) => .ok s
  | some _ => .error [.expectedString key]
  | none => .error [.missingKey key]

/-- One templates entry: `z.object({ id: z.string(), target: z.string() }).strict()`. -/
def checkTemplateEntry : Json → VE TemplatePointer
  | .obj fields =>
      veMap2 (fun _ p => p) (strictKeys ["id", "target"] fields)
        (veMap2 TemplatePointer.mk (checkStringField fields "id")
          (checkStringField fields "target"))
  | _ => .error [.expectedObject]

/-- Validate every element of a JSON array, accumulating violations. -/
def checkList {α : Type} (f : Json → VE α) : List Json → VE (List α)
  | [] => .ok []
  | j :: js => veMap2 List.cons (f j) (checkList f js)

/-- The `templates` field: `z.array(...)`. -/
def checkTemplates : Json → VE (List TemplatePointer)
  | .arr js => checkList checkTemplateEntry js
  | _ => .error [.expectedArray]

/-- One value of the `globals` record against
`z.union([z.string(), z.number(), z.boolean()])`. -/
def checkGlobalValue (key : String) : Json → VE GlobalValue
  | .str s => .ok (.str s)
  | .num n => .ok (.num n)
  | .bool b => .ok (.bool b)
  | _ => .error [.invalidGlobalValue key]

/-- All entries of the `globals` record. -/
def checkGlobalEntries : List (String × Json) → VE (List (String × GlobalValue))
  | [] => .ok []
  | (k, v) :: r =>
      veMap2 List.cons ((checkGlobalValue k v).map (fun g => (k, g)))
        (checkGlobalEntries r)

/-- The `globals` field: `z.record(z.union([...]))`. -/
def checkGlobals : Json → VE (List (String × GlobalValue))
  | .obj fields => checkGlobalEntries fields
  | _ => .error [.expectedObject]

/-- An `.optional()` field of an object: absent keys validate to `none`. -/
def checkOptField {α : Type} (fields : List (String × Json)) (key : String)
    (f : Json → VE α) : VE (Option α) :=
  match lookupJson fields key with
  | none => .ok none
  | some j => (f j).map some

/-- The `backstage.new` block:
`z.object({ templates: ..., globals: ... }).strict()`. -/
def checkNewBlock : Json → VE NewBlock
  | .obj fields =>
      veMap2 (fun _ p => p) (strictKeys ["templates", "globals"] fields)
        (veMap2 NewBlock.mk (checkOptField fields "templates" checkTemplates)
          (checkOptField fields "globals" checkGlobals))
  | _ => .error [.expectedObject]

/-- The `backstage` object: non-strict, with an optional `new` field. -/
def checkBackstage : Json → VE (Option NewBlock)
  | .obj fields => checkOptField fields "new" checkNewBlock
  | _ => .error [.expectedObject]

/-- `pkgJsonWithNewConfigSchema.safeParse`: the top level is a non-strict
object with an optional `backstage` field; the result is the parsed
`backstage.new` block when present (`parsed.data.backstage?.new`). -/
def safeParse : Json → VE (Option NewBlock)
  | .obj fields =>
      match checkOptField fields "backstage" checkBackstage with
      | .ok onb => .ok onb.join
      | .error e => .error e
  | _ => .error [.expectedObject]

/-- `defaultGlobals` from loadConfig.ts. -/
def defaultGlobals : List (String × GlobalValue) :=
  [("license", .str "Apache-2.0"), ("baseVersion", .str "0.1.0"),
   ("private", .bool true)]

/-- Lookup in a merged record: the value bound to the first field with the
given key. -/
def lookupRec {α : Type} : List (String × α) → String → Option α
  | [], _ => none
  | p :: r, k => if p.1 = k then some p.2 else lookupRec r k

/-- JavaScript object spread `{...a, ...b}`: the keys of `a` in order, each
with the value from `b` when `b` also binds it, followed by the keys of `b`
that `a` does not bind, in order. -/
def spreadMerge {α : Type} (a b : List (String × α)) : List (String × α) :=
  a.map (fun p => (p.1, (lookupRec b p.1).getD p.2))
    ++ b.filter (fun p => (lookupRec a p.1).isNone)

/-- The error thrown on validation failure: a `ForwardedError` whose message
names the manifest path and which wraps the schema violations
(`fromZodError(parsed.error)`). -/
structure ForwardedError where
  message : String
  issues : List SchemaViolation
deriving DecidableEq, Repr

/-- The `NewConfig` record returned by `loadConfig`. -/
structure NewConfig where
  isUsingDefaultTemplates : Bool
  templatePointers : List TemplatePointer
  globals : List (String × GlobalValue)
deriving DecidableEq, Repr

/-- `loadConfig` from loadConfig.ts, after the file read: `pkgJson` is the
parsed manifest and `pkgPath` the resolved path (used only in the error
message).  `defaultTemplates` is passed as a parameter because
defaultTemplates.ts is outside the embedded sources; the loader only
substitutes it unchanged. -/
def loadConfig (defaultTemplates : List TemplatePointer) (pkgPath : String)
    (pkgJson : Json) (globalOverrides : List (String × GlobalValue)) :
    Except ForwardedError NewConfig :=
  match safeParse pkgJson with
  | .error issues =>
      .error { message :=
                 "Failed to load templating configuration from '"
                   ++ pkgPath ++ "'",
               issues := issues }
  | .ok newConfig =>
      .ok { isUsingDefaultTemplates := (newConfig.bind NewBlock.templates).isNone
            templatePointers := (newConfig.bind NewBlock.templates).getD defaultTemplates
            globals := spreadMerge (spreadMerge defaultGlobals
                ((newConfig.bind NewBlock.globals).getD [])) globalOverrides }

/-- Modelled from the spec: the implementation file of the
`gitlab:issues:create` action (createGitlabIssueAction.ts) is not among the
embedded sources, only its test suite is; the enumerated `issueType` input
of the IssueCreateRequest (default | incident | test_case | task). -/
inductive IssueType where
  | default
  | incident
  | testCase
  | task
deriving DecidableEq, Repr

/-- Modelled from the spec: the lowercase string form of an `issueType`
expected downstream by the tracker client. -/
def IssueType.asString : IssueType → String
  | .default => "default"
  | .incident => "incident"
  | .testCase => "test_case"
  | .task => "task"

/-- A broken-down ISO-8601 date-time. -/
structure IsoDateTime where
  year : Nat
  month : Nat
  day : Nat
  hour : Nat
  minute : Nat
  second : Nat
  millisecond : Nat
deriving DecidableEq, Repr

/-- The numeric value of a decimal digit character. -/
def digitVal (c : Char) : Option Nat :=
  if c.isDigit then some (c.toNat - 48) else none

/-- Read exactly `n` decimal digits, returning their value and the rest of
the input. -/
def parseDigits : Nat → Nat → List Char → Option (Nat × List Char)
  | 0, acc, cs => some (acc, cs)
  | n + 1, acc, c :: cs =>
      match digitVal c with
      | some d => parseDigits n (acc * 10 + d) cs
      | none => none
  | _ + 1, _, [] => none

/-- Consume one expected character. -/
def expectChar (c : Char) : List Char → Option (List Char)
  | d :: cs => if d = c then some cs else none
  | [] => none

/-- An optional `.mmm` milliseconds part. -/
def parseMillis : List Char → Option (Nat × List Char)
  | '.' :: cs => parseDigits 3 0 cs
  | cs => some (0, cs)

/-- The `HH:MM:SS(.mmm)?Z` time part, which must end the input. -/
def parseTimePart (cs : List Char) : Option (Nat × Nat × Nat × Nat) := do
  let (h, cs) ← parseDigits 2 0 cs
  let cs ← expectChar ':' cs
  let (mi, cs) ← parseDigits 2 0 cs
  let cs ← expectChar ':' cs
  let (s, cs) ← parseDigits 2 0 cs
  let (ms, cs) ← parseMillis cs
  let cs ← expectChar 'Z' cs
  match cs with
  | [] => if h < 24 ∧ mi < 60 ∧ s < 60 then some (h, mi, s, ms) else none
  | _ => none

/-- Modelled from the spec: `dueDate` date parsing: a bare `YYYY-MM-DD`
date (taken as UTC midnight) or a `YYYY-MM-DDTHH:MM:SS(.mmm)?Z` date-time;
anything else is unparsable. -/
def parseIsoDate (cs : List Char) : Option IsoDateTime := do
  let (y, cs) ← parseDigits 4 0 cs
  let cs ← expectChar '-' cs
  let (mo, cs) ← parseDigits 2 0 cs
  let cs ← expectChar '-' cs
  let (d, cs) ← parseDigits 2 0 cs
  if 1 ≤ mo ∧ mo ≤ 12 ∧ 1 ≤ d ∧ d ≤ 31 then
    match cs with
    | [] => some ⟨y, mo, d, 0, 0, 0, 0⟩
    | 'T' :: rest =>
        (parseTimePart rest).map (fun t => ⟨y, mo, d, t.1, t.2.1, t.2.2.1, t.2.2.2⟩)
    | _ => none
  else none

/-- Left-pad a number with zeros to the given width. -/
def padNum (w n : Nat) : String :=
  let s := toString n
  String.mk (List.replicate (w - s.length) '0') ++ s

/-- Render a broken-down date-time as a full ISO-8601 string with
milliseconds, as `Date.prototype.toISOString` does. -/
def renderIso (t : IsoDateTime) : String :=
  padNum 4 t.year ++ "-" ++ padNum 2 t.month ++ "-" ++ padNum 2 t.day ++ "T"
    ++ padNum 2 t.hour ++ ":" ++ padNum 2 t.minute ++ ":" ++ padNum 2 t.second
    ++ "." ++ padNum 3 t.millisecond ++ "Z"

/-- Modelled from the spec: normalization of `dueDate` to full ISO-8601 via
date parsing; `none` when the string is unparsable. -/
def normalizeDueDate (s : String) : Option String :=
  (parseIsoDate s.data).map renderIso

/-- Modelled from the spec: the IssueCreateRequest input of the action.
Optional fields are `none` when absent. -/
structure IssueActionInput where
  repoUrl : String
  projectId : Int
  title : String
  issueType : Option IssueType := none
  description : Option String := none
  dueDate : Option String := none
  token : Option String := none
  assignees : Option (List Int) := none
  labels : Option String := none
  confidential : Option Bool := none
  epicId : Option Int := none
  milestoneId : Option Int := none
  weight : Option Int := none
  discussionToResolve : Option String := none
  mergeRequestToResolveDiscussionsOf : Option Int := none
deriving DecidableEq, Repr

/-- The options record the action passes to the tracker client's create
operation, with the exact field set the test suite asserts on. -/
structure IssueOptions where
  issueType : Option String
  description : String
  assigneeIds : List Int
  confidential : Bool
  epicId : Option Int
  labels : String
  createdAt : String
  dueDate : Option String
  discussionToResolve : String
  mergeRequestToResolveDiscussionsOf : Option Int
  milestoneId : Option Int
  weight : Option Int
deriving DecidableEq, Repr

/-- The tracker client's response: `{id, web_url, ...}`. -/
structure IssueResponse where
  id : Int
  web_url : String
deriving DecidableEq, Repr

/-- A failure of the action: an unparsable `dueDate`, or a rejection from
the tracker client. -/
inductive HandlerError where
  | dateParseError (dueDate : String)
  | clientError (message : String)
deriving DecidableEq, Repr

/-- One invocation of the tracker client's create operation:
`(projectId, title, optionsRecord)`. -/
structure ClientCall where
  projectId : Int
  title : String
  options : IssueOptions
deriving DecidableEq, Repr

/-- A value emitted through the action's `output` callback. -/
inductive OutputValue where
  | num (n : Int)
  | str (s : String)
deriving DecidableEq, Repr

/-- The observable behaviour of one handler run: the client calls made, the
outputs emitted, and the error propagated to the framework, if any. -/
structure HandlerResult where
  calls : List ClientCall
  outputs : List (String × OutputValue)
  error : Option HandlerError
deriving DecidableEq, Repr

/-- Modelled from the spec: the parameter translation of the handler.
Absent optional fields are defaulted before the client call: `description`
to the empty string, `assignees` to the empty sequence (as `assigneeIds`),
`confidential` to false, `labels` and `discussionToResolve` to the empty
string; `issueType` is mapped to its lowercase string form; `createdAt` is
the injected current timestamp `now`; the remaining optional fields pass
through unchanged. -/
def mkIssueOptions (input : IssueActionInput) (now : String)
    (dueDate : Option String) : IssueOptions :=
  { issueType := input.issueType.map IssueType.asString
    description := input.description.getD ""
    assigneeIds := input.assignees.getD []
    confidential := input.confidential.getD false
    epicId := input.epicId
    labels := input.labels.getD ""
    createdAt := now
    dueDate := dueDate
    discussionToResolve := input.discussionToResolve.getD ""
    mergeRequestToResolveDiscussionsOf := input.mergeRequestToResolveDiscussionsOf
    milestoneId := input.milestoneId
    weight := input.weight }

/-- Modelled from the spec: the options record of the client call, failing
before any outbound call when a supplied `dueDate` is unparsable. -/
def buildOptions (input : IssueActionInput) (now : String) :
    Except HandlerError IssueOptions :=
  match input.dueDate with
  | some s =>
      match normalizeDueDate s with
      | none => .error (.dateParseError s)
      | some d => .ok (mkIssueOptions input now (some d))
  | none => .ok (mkIssueOptions input now none)

/-- Modelled from the spec: the handler of the `gitlab:issues:create`
action.  `now` is the injected current timestamp and `client` the injected
tracker client.  The client is invoked exactly once with
`(projectId, title, optionsRecord)`; on success the two outputs `issueId`
and `issueUrl` are emitted from the response; a client rejection
propagates with no output; an unparsable `dueDate` fails with no client
call. -/
def handler (input : IssueActionInput) (now : String)
    (client : Int → String → IssueOptions → Except String IssueResponse) :
    HandlerResult :=
  match buildOptions input now with
  | .error e => { calls := [], outputs := [], error := some e }
  | .ok opts =>
      match client input.projectId input.title opts with
      | .error e =>
          { calls := [⟨input.projectId, input.title, opts⟩],
            outputs := [], error := some (.clientError e) }
      | .ok resp =>
          { calls := [⟨input.projectId, input.title, opts⟩],
            outputs := [("issueId", .num resp.id),
                        ("issueUrl", .str resp.web_url)],
            error := none }

/-- The NewConfig produced in the spec's concrete globals-merge scenario. -/
def overlayScenarioConfig : NewConfig :=
  { isUsingDefaultTemplates := true, templatePointers := [],
    globals := [("license", .str "Apache-2.0"), ("baseVersion", .str "0.2.0"),
                ("private", .bool false)] }

/-- The manifest of the spec's concrete globals-merge scenario: globals
`{baseVersion: "0.2.0"}`. -/
def overlayScenarioManifest : Json :=
  .obj [("backstage", .obj [("new", .obj
    [("globals", .obj [("baseVersion", .str "0.2.0")])])])]

theorem lookupRec_append {α : Type} (l₁ l₂ : List (String × α)) (k : String) :
    lookupRec (l₁ ++ l₂) k = (lookupRec l₁ k).or (lookupRec l₂ k) := by
  induction l₁ with
  | nil => simp [lookupRec]
  | cons p r ih =>
    simp only [List.cons_append, lookupRec]
    by_cases h : p.1 = k
    · simp [h]
    · simp [h, ih]

theorem lookupRec_map_getD {α : Type} (a b : List (String × α)) (k : String) :
    lookupRec (a.map (fun p => (p.1, (lookupRec b p.1).getD p.2))) k
      = (lookupRec a k).map (fun v => (lookupRec b k).getD v) := by
  induction a with
  | nil => simp [lookupRec]
  | cons p r ih =>
    simp only [List.map_cons, lookupRec]
    by_cases h : p.1 = k
    · subst h; simp
    · simp [h, ih]

theorem lookupRec_filter_isNone {α : Type} (a b : List (String × α)) (k : String) :
    lookupRec (b.filter (fun p => (lookupRec a p.1).isNone)) k
      = if (lookupRec a k).isNone = true then lookupRec b k else none := by
  induction b with
  | nil => simp [lookupRec]
  | cons q r ih =>
    rw [List.filter_cons]
    by_cases hq : (lookupRec a q.1).isNone = true
    · rw [if_pos (by simpa using hq)]
      simp only [lookupRec]
      by_cases hk : q.1 = k
      · subst hk; simp [hq]
      · simp [hk, ih]
    · rw [if_neg (by simpa using hq)]
      by_cases hk : q.1 = k
      · subst hk
        rw [ih]
        simp [hq, lookupRec]
      · simp [lookupRec, hk, ih]

theorem lookupRec_spreadMerge {α : Type} (a b : List (String × α)) (k : String) :
    lookupRec (spreadMerge a b) k = (lookupRec b k).or (lookupRec a k) := by
  unfold spreadMerge
  rw [lookupRec_append, lookupRec_map_getD, lookupRec_filter_isNone]
  cases ha : lookupRec a k with
  | none => simp
  | some v =>
    cases hb : lookupRec b k with
    | none => simp
    | some w => simp

theorem veMap2_error_left {α β γ : Type} (f : α → β → γ) (a : VE α) (b : VE β)
    (e : List SchemaViolation) (ha : a = .error e) (hne : e ≠ []) :
    ∃ e2, veMap2 f a b = .error e2 ∧ e2 ≠ [] := by
  subst ha
  cases b with
  | ok v => exact ⟨e, rfl, hne⟩
  | error e3 => exact ⟨e ++ e3, rfl, fun h => hne (List.append_eq_nil.mp h).1⟩

theorem veMap2_error_right {α β γ : Type} (f : α → β → γ) (a : VE α) (b : VE β)
    (e : List SchemaViolation) (hb : b = .error e) (hne : e ≠ []) :
    ∃ e2, veMap2 f a b = .error e2 ∧ e2 ≠ [] := by
  subst hb
  cases a with
  | ok v => exact ⟨e, rfl, hne⟩
  | error e1 => exact ⟨e1 ++ e, rfl, fun h => hne (List.append_eq_nil.mp h).2⟩

theorem checkList_error {α : Type} (f : Json → VE α) (js : List Json) (j : Json)
    (hj : j ∈ js) (e : List SchemaViolation) (he : f j = .error e) (hne : e ≠ []) :
    ∃ e2, checkList f js = .error e2 ∧ e2 ≠ [] := by
  induction js with
  | nil => cases hj
  | cons x xs ih =>
    simp only [checkList]
    rcases List.mem_cons.mp hj with h | h
    · subst h
      exact veMap2_error_left _ _ _ _ he hne
    · rcases ih h with ⟨e3, h3, hne3⟩
      exact veMap2_error_right _ _ _ _ h3 hne3

theorem strictKeys_error (allowed : List String) (fields : List (String × Json))
    (k : String) (v : Json) (hmem : (k, v) ∈ fields)
    (hk : allowed.contains k = false) :
    ∃ e, strictKeys allowed fields = .error e ∧ e ≠ [] := by
  have hmem2 : (k, v) ∈ fields.filter (fun p => !(allowed.contains p.1)) :=
    List.mem_filter.mpr ⟨hmem, by simpa using hk⟩
  have hbad : fields.filter (fun p => !(allowed.contains p.1)) ≠ [] :=
    List.ne_nil_of_mem hmem2
  unfold strictKeys
  rw [if_neg (by simpa [List.isEmpty_iff] using hbad)]
  exact ⟨_, rfl, by simpa [List.map_eq_nil_iff] using hbad⟩

theorem checkTemplateEntry_error (tfs : List (String × Json)) (k : String) (v : Json)
    (hmem : (k, v) ∈ tfs) (h1 : k ≠ "id") (h2 : k ≠ "target") :
    ∃ e, checkTemplateEntry (.obj tfs) = .error e ∧ e ≠ [] := by
  obtain ⟨e, he, hne⟩ := strictKeys_error ["id", "target"] tfs k v hmem (by simp [h1, h2])
  simp only [checkTemplateEntry]
  exact veMap2_error_left _ _ _ _ he hne

theorem checkGlobalValue_error (k : String) (v : Json) (hv : v.isPrim = false) :
    checkGlobalValue k v = .error [.invalidGlobalValue k] := by
  cases v <;> simp_all [Json.isPrim, checkGlobalValue]

theorem checkGlobalEntries_error (gs : List (String × Json)) (k : String) (v : Json)
    (hmem : (k, v) ∈ gs) (hv : v.isPrim = false) :
    ∃ e, checkGlobalEntries gs = .error e ∧ e ≠ [] := by
  induction gs with
  | nil => cases hmem
  | cons q r ih =>
    obtain ⟨qk, qv⟩ := q
    simp only [checkGlobalEntries]
    rcases List.mem_cons.mp hmem with h | h
    · injection h with hk hvq
      subst hk; subst hvq
      have hmap : (checkGlobalValue k v).map (fun g => (k, g))
          = Except.error [SchemaViolation.invalidGlobalValue k] := by
        rw [checkGlobalValue_error k v hv]; rfl
      exact veMap2_error_left _ _ _ _ hmap (by simp)
    · rcases ih h with ⟨e3, h3, hne3⟩
      exact veMap2_error_right _ _ _ _ h3 hne3

theorem checkOptField_error {α : Type} (fields : List (String × Json)) (key : String)
    (f : Json → VE α) (j : Json) (hl : lookupJson fields key = some j)
    (e : List SchemaViolation) (he : f j = .error e) :
    checkOptField fields key f = .error e := by
  unfold checkOptField
  rw [hl]
  show Except.map some (f j) = Except.error e
  rw [he]
  rfl

theorem checkNewBlock_error_unknownKey (ns : List (String × Json)) (k : String) (v : Json)
    (hmem : (k, v) ∈ ns) (h1 : k ≠ "templates") (h2 : k ≠ "globals") :
    ∃ e, checkNewBlock (.obj ns) = .error e ∧ e ≠ [] := by
  obtain ⟨e, he, hne⟩ := strictKeys_error ["templates", "globals"] ns k v hmem (by simp [h1, h2])
  simp only [checkNewBlock]
  exact veMap2_error_left _ _ _ _ he hne

theorem checkNewBlock_error_templates (ns : List (String × Json)) (ts : List Json)
    (htm : lookupJson ns "templates" = some (.arr ts))
    (j : Json) (hj : j ∈ ts) (e : List SchemaViolation)
    (he : checkTemplateEntry j = .error e) (hne : e ≠ []) :
    ∃ e2, checkNewBlock (.obj ns) = .error e2 ∧ e2 ≠ [] := by
  obtain ⟨e2, he2, hne2⟩ := checkList_error checkTemplateEntry ts j hj e he hne
  have hT : checkTemplates (.arr ts) = .error e2 := he2
  have hOpt : checkOptField ns "templates" checkTemplates = .error e2 :=
    checkOptField_error ns "templates" checkTemplates _ htm e2 hT
  obtain ⟨e3, he3, hne3⟩ := veMap2_error_left NewBlock.mk _ _ _ hOpt hne2
  simp only [checkNewBlock]
  exact veMap2_error_right _ _ _ _ he3 hne3

theorem checkNewBlock_error_globals (ns : List (String × Json)) (gs : List (String × Json))
    (hg : lookupJson ns "globals" = some (.obj gs))
    (k : String) (v : Json) (hmem : (k, v) ∈ gs) (hv : v.isPrim = false) :
    ∃ e2, checkNewBlock (.obj ns) = .error e2 ∧ e2 ≠ [] := by
  obtain ⟨e, he, hne⟩ := checkGlobalEntries_error gs k v hmem hv
  have hG : checkGlobals (.obj gs) = .error e := he
  have hOpt : checkOptField ns "globals" checkGlobals = .error e :=
    checkOptField_error ns "globals" checkGlobals _ hg e hG
  obtain ⟨e3, he3, hne3⟩ := veMap2_error_right NewBlock.mk _ _ _ hOpt hne
  simp only [checkNewBlock]
  exact veMap2_error_right _ _ _ _ he3 hne3

theorem loadConfig_error_of_newBlock (dts : List TemplatePointer) (path : String)
    (ov : List (String × GlobalValue)) (fs bs ns : List (String × Json))
    (hb : lookupJson fs "backstage" = some (.obj bs))
    (hn : lookupJson bs "new" = some (.obj ns))
    (e : List SchemaViolation) (he : checkNewBlock (.obj ns) = .error e) :
    loadConfig dts path (.obj fs) ov =
      .error { message := "Failed to load templating configuration from '"
                 ++ path ++ "'",
               issues := e } := by
  have h1 : checkBackstage (.obj bs) = .error e := by
    simp only [checkBackstage]
    exact checkOptField_error bs "new" checkNewBlock _ hn e he
  have h2 : safeParse (.obj fs) = .error e := by
    simp only [safeParse]
    rw [checkOptField_error fs "backstage" checkBackstage _ hb e h1]
  unfold loadConfig
  rw [h2]

theorem loadConfig_ok_of_parse (dts : List TemplatePointer) (path : String)
    (j : Json) (ov : List (String × GlobalValue)) (onb : Option NewBlock)
    (h : safeParse j = .ok onb) :
    loadConfig dts path j ov = .ok
      { isUsingDefaultTemplates := (onb.bind NewBlock.templates).isNone,
        templatePointers := (onb.bind NewBlock.templates).getD dts,
        globals := spreadMerge (spreadMerge defaultGlobals
          ((onb.bind NewBlock.globals).getD [])) ov } := by
  unfold loadConfig
  rw [h]

/-- C1: for every manifest and caller override mapping, the `globals` field
of the NewConfig returned by loadConfig is the overlay of built-in defaults,
then manifest-declared `backstage.new.globals`, then the caller's
`globalOverrides`, later layers winning on key collision: looking up any key
yields the override value when bound, else the manifest value when bound,
else the default value. -/
theorem loadConfig_globals_overlay (dts : List TemplatePointer) (path : String)
    (manifest : Json) (ov : List (String × GlobalValue))
    (onb : Option NewBlock) (cfg : NewConfig)
    (hp : safeParse manifest = .ok onb)
    (hl : loadConfig dts path manifest ov = .ok cfg) (k : String) :
    lookupRec cfg.globals k =
      ((lookupRec ov k).or
        ((lookupRec ((onb.bind NewBlock.globals).getD []) k).or
          (lookupRec defaultGlobals k))) := by
  rw [loadConfig_ok_of_parse dts path manifest ov onb hp] at hl
  injection hl with h
  subst h
  rw [lookupRec_spreadMerge, lookupRec_spreadMerge]

/-- Witness for C1, the spec's concrete scenario: manifest globals
`{baseVersion: "0.2.0"}` and override `{private: false}` give
`license = "Apache-2.0"`, `baseVersion = "0.2.0"`, `private = false`. -/
theorem loadConfig_globals_overlay_witness :
    loadConfig [] "pkg" overlayScenarioManifest [("private", .bool false)]
        = .ok overlayScenarioConfig ∧
    lookupRec overlayScenarioConfig.globals "license" = some (.str "Apache-2.0") ∧
    lookupRec overlayScenarioConfig.globals "baseVersion" = some (.str "0.2.0") ∧
    lookupRec overlayScenarioConfig.globals "private" = some (.bool false) := by
  refine ⟨rfl, ?_, ?_, ?_⟩ <;>
    · rw [loadConfig_globals_overlay [] "pkg" overlayScenarioManifest
        [("private", .bool false)]
        (some { templates := none,
                globals := some [("baseVersion", .str "0.2.0")] })
        overlayScenarioConfig rfl rfl]
      rfl

/-- C2: for every manifest that validates successfully and lacks
`backstage.new.templates`, loadConfig returns
`isUsingDefaultTemplates = true` and `templatePointers` equal to the
built-in default template sequence. -/
theorem loadConfig_default_templates (dts : List TemplatePointer) (path : String)
    (manifest : Json) (ov : List (String × GlobalValue))
    (onb : Option NewBlock) (cfg : NewConfig)
    (hp : safeParse manifest = .ok onb)
    (ht : onb.bind NewBlock.templates = none)
    (hl : loadConfig dts path manifest ov = .ok cfg) :
    cfg.isUsingDefaultTemplates = true ∧ cfg.templatePointers = dts := by
  rw [loadConfig_ok_of_parse dts path manifest ov onb hp] at hl
  injection hl with h
  subst h
  simp [ht]

/-- Witness for C2: a manifest with no `backstage` block at all. -/
theorem loadConfig_default_templates_witness :
    NewConfig.isUsingDefaultTemplates
        { isUsingDefaultTemplates := true,
          templatePointers := [⟨"t1", "p1"⟩], globals := defaultGlobals } = true ∧
    NewConfig.templatePointers
        { isUsingDefaultTemplates := true,
          templatePointers := [⟨"t1", "p1"⟩], globals := defaultGlobals }
      = [⟨"t1", "p1"⟩] :=
  loadConfig_default_templates [⟨"t1", "p1"⟩] "pkg" (.obj []) [] none
    { isUsingDefaultTemplates := true, templatePointers := [⟨"t1", "p1"⟩],
      globals := defaultGlobals } rfl rfl rfl

/-- C3: for every manifest that validates successfully and declares a
`backstage.new.templates` array (the empty array included), loadConfig
returns `isUsingDefaultTemplates = false` and `templatePointers` equal to
that array verbatim. -/
theorem loadConfig_declared_templates (dts : List TemplatePointer) (path : String)
    (manifest : Json) (ov : List (String × GlobalValue))
    (onb : Option NewBlock) (ts : List TemplatePointer) (cfg : NewConfig)
    (hp : safeParse manifest = .ok onb)
    (ht : onb.bind NewBlock.templates = some ts)
    (hl : loadConfig dts path manifest ov = .ok cfg) :
    cfg.isUsingDefaultTemplates = false ∧ cfg.templatePointers = ts := by
  rw [loadConfig_ok_of_parse dts path manifest ov onb hp] at hl
  injection hl with h
  subst h
  simp [ht]

/-- Witness for C3: a manifest declaring the empty `templates` array still
turns the flag off and keeps the array verbatim. -/
theorem loadConfig_declared_templates_witness :
    NewConfig.isUsingDefaultTemplates
        { isUsingDefaultTemplates := false, templatePointers := [],
          globals := defaultGlobals } = false ∧
    NewConfig.templatePointers
        { isUsingDefaultTemplates := false, templatePointers := [],
          globals := defaultGlobals } = [] :=
  loadConfig_declared_templates [⟨"t1", "p1"⟩] "pkg"
    (.obj [("backstage", .obj [("new", .obj [("templates", .arr [])])])])
    [] (some { templates := some [], globals := none }) []
    { isUsingDefaultTemplates := false, templatePointers := [],
      globals := defaultGlobals } rfl rfl rfl

/-- C10: every successful loadConfig call returns a `globals` mapping that
binds the keys `license`, `baseVersion` and `private`, whatever the
manifest and the overrides. -/
theorem loadConfig_globals_keys_present (dts : List TemplatePointer) (path : String)
    (manifest : Json) (ov : List (String × GlobalValue)) (cfg : NewConfig)
    (hl : loadConfig dts path manifest ov = .ok cfg) :
    (lookupRec cfg.globals "license").isSome = true ∧
    (lookupRec cfg.globals "baseVersion").isSome = true ∧
    (lookupRec cfg.globals "private").isSome = true := by
  cases hp : safeParse manifest with
  | error e =>
    rw [loadConfig] at hl
    rw [hp] at hl
    cases hl
  | ok onb =>
    rw [loadConfig_ok_of_parse dts path manifest ov onb hp] at hl
    injection hl with h
    subst h
    refine ⟨?_, ?_, ?_⟩ <;>
      · rw [lookupRec_spreadMerge, lookupRec_spreadMerge,
            Option.isSome_or, Option.isSome_or]
        simp [lookupRec, defaultGlobals]

/-- Witness for C10: a manifest with no `backstage` block. -/
theorem loadConfig_globals_keys_present_witness :
    (lookupRec (NewConfig.globals
        { isUsingDefaultTemplates := true, templatePointers := [],
          globals := defaultGlobals }) "license").isSome = true ∧
    (lookupRec (NewConfig.globals
        { isUsingDefaultTemplates := true, templatePointers := [],
          globals := defaultGlobals }) "baseVersion").isSome = true ∧
    (lookupRec (NewConfig.globals
        { isUsingDefaultTemplates := true, templatePointers := [],
          globals := defaultGlobals }) "private").isSome = true :=
  loadConfig_globals_keys_present [] "pkg" (.obj [("name", .str "my-pkg")]) []
    { isUsingDefaultTemplates := true, templatePointers := [],
      globals := defaultGlobals } rfl

/-- C4: a manifest whose `backstage.new.templates` entries contain a key
other than `id` and `target` makes loadConfig fail with an error that names
the manifest path and wraps the schema violations; no NewConfig is
returned. -/
theorem loadConfig_rejects_extra_template_key (dts : List TemplatePointer)
    (path : String) (ov : List (String × GlobalValue))
    (fs bs ns : List (String × Json)) (ts : List Json)
    (tfs : List (String × Json)) (k : String) (v : Json)
    (hb : lookupJson fs "backstage" = some (.obj bs))
    (hn : lookupJson bs "new" = some (.obj ns))
    (htm : lookupJson ns "templates" = some (.arr ts))
    (hentry : Json.obj tfs ∈ ts)
    (hmem : (k, v) ∈ tfs) (h1 : k ≠ "id") (h2 : k ≠ "target") :
    ∃ err, loadConfig dts path (.obj fs) ov = .error err ∧
      err.message = "Failed to load templating configuration from '"
        ++ path ++ "'" ∧
      err.issues ≠ [] := by
  obtain ⟨e, he, hne⟩ := checkTemplateEntry_error tfs k v hmem h1 h2
  obtain ⟨e2, he2, hne2⟩ :=
    checkNewBlock_error_templates ns ts htm (.obj tfs) hentry e he hne
  exact ⟨_, loadConfig_error_of_newBlock dts path ov fs bs ns hb hn e2 he2,
    rfl, hne2⟩

/-- Witness for C4: a templates entry `{id, target, extra}`. -/
theorem loadConfig_rejects_extra_template_key_witness :
    ∃ err, loadConfig [] "pkg"
        (.obj [("backstage", .obj [("new", .obj [("templates", .arr
          [.obj [("id", .str "a"), ("target", .str "b"),
                 ("extra", .str "x")]])])])])
        [] = .error err ∧
      err.message = "Failed to load templating configuration from '"
        ++ "pkg" ++ "'" ∧
      err.issues ≠ [] :=
  loadConfig_rejects_extra_template_key [] "pkg" []
    [("backstage", .obj [("new", .obj [("templates", .arr
      [.obj [("id", .str "a"), ("target", .str "b"), ("extra", .str "x")]])])])]
    [("new", .obj [("templates", .arr
      [.obj [("id", .str "a"), ("target", .str "b"), ("extra", .str "x")]])])]
    [("templates", .arr
      [.obj [("id", .str "a"), ("target", .str "b"), ("extra", .str "x")]])]
    [.obj [("id", .str "a"), ("target", .str "b"), ("extra", .str "x")]]
    [("id", .str "a"), ("target", .str "b"), ("extra", .str "x")]
    "extra" (.str "x") rfl rfl rfl (List.Mem.head _)
    (List.Mem.tail _ (List.Mem.tail _ (List.Mem.head _)))
    (by decide) (by decide)

/-- C5: manifest validation is strict on the `backstage.new` block:
loadConfig rejects any manifest whose `backstage.new` object binds a key
other than `templates` and `globals`, and any manifest whose
`backstage.new.globals` binds a value that is not a string, a number or a
boolean. -/
theorem loadConfig_strict_new_schema (dts : List TemplatePointer) (path : String)
    (ov : List (String × GlobalValue)) (fs bs ns : List (String × Json))
    (hb : lookupJson fs "backstage" = some (.obj bs))
    (hn : lookupJson bs "new" = some (.obj ns)) :
    (∀ k v, (k, v) ∈ ns → k ≠ "templates" → k ≠ "globals" →
      ∃ err, loadConfig dts path (.obj fs) ov = .error err) ∧
    (∀ gs k v, lookupJson ns "globals" = some (.obj gs) → (k, v) ∈ gs →
      Json.isPrim v = false →
      ∃ err, loadConfig dts path (.obj fs) ov = .error err) := by
  constructor
  · intro k v hmem h1 h2
    obtain ⟨e, he, _⟩ := checkNewBlock_error_unknownKey ns k v hmem h1 h2
    exact ⟨_, loadConfig_error_of_newBlock dts path ov fs bs ns hb hn e he⟩
  · intro gs k v hg hmem hv
    obtain ⟨e, he, _⟩ := checkNewBlock_error_globals ns gs hg k v hmem hv
    exact ⟨_, loadConfig_error_of_newBlock dts path ov fs bs ns hb hn e he⟩

/-- Witness for C5: a `backstage.new` block with the unknown key `bogus`,
and a `backstage.new.globals` binding `opts` to an object value. -/
theorem loadConfig_strict_new_schema_witness :
    (∃ err, loadConfig [] "pkg"
        (.obj [("backstage", .obj [("new", .obj [("bogus", .str "x")])])])
        [] = .error err) ∧
    (∃ err, loadConfig [] "pkg"
        (.obj [("backstage", .obj [("new", .obj
          [("globals", .obj [("opts", .obj [])])])])])
        [] = .error err) :=
  ⟨(loadConfig_strict_new_schema [] "pkg" []
      [("backstage", .obj [("new", .obj [("bogus", .str "x")])])]
      [("new", .obj [("bogus", .str "x")])]
      [("bogus", .str "x")] rfl rfl).1
    "bogus" (.str "x") (List.Mem.head _) (by decide) (by decide),
   (loadConfig_strict_new_schema [] "pkg" []
      [("backstage", .obj [("new", .obj
        [("globals", .obj [("opts", .obj [])])])])]
      [("new", .obj [("globals", .obj [("opts", .obj [])])])]
      [("globals", .obj [("opts", .obj [])])] rfl rfl).2
    [("opts", .obj [])] "opts" (.obj []) rfl (List.Mem.head _) rfl⟩

/-- C6: for an input containing only `repoUrl`, `projectId` and `title`,
the handler invokes the client's create operation exactly once with
`(projectId, title, optionsRecord)` where the options record defaults
`description` to "", `assigneeIds` to [], `confidential` to false,
`labels` to "", `discussionToResolve` to "" and leaves `issueType`
undefined, and on success emits exactly the two outputs `issueId` (the
numeric id of the response) and `issueUrl` (the response's web URL). -/
theorem handler_minimal_input (repoUrl : String) (projectId : Int)
    (title : String) (now : String) (resp : IssueResponse) :
    handler { repoUrl := repoUrl, projectId := projectId, title := title }
        now (fun _ _ _ => .ok resp) =
      { calls := [⟨projectId, title,
          { issueType := none, description := "", assigneeIds := [],
            confidential := false, epicId := none, labels := "",
            createdAt := now, dueDate := none, discussionToResolve := "",
            mergeRequestToResolveDiscussionsOf := none, milestoneId := none,
            weight := none }⟩],
        outputs := [("issueId", .num resp.id), ("issueUrl", .str resp.web_url)],
        error := none } := rfl

/-- C7: a supplied `dueDate` reaches the client normalized to full
ISO-8601 by date parsing; an unparsable `dueDate` fails the handler before
any client call; an absent `dueDate` reaches the client as `undefined`. -/
theorem handler_dueDate_normalization (input : IssueActionInput) (now : String)
    (client : Int → String → IssueOptions → Except String IssueResponse) :
    (∀ opts, buildOptions input now = .ok opts →
      opts.dueDate = input.dueDate.bind normalizeDueDate) ∧
    (∀ s, input.dueDate = some s → normalizeDueDate s = none →
      handler input now client =
        { calls := [], outputs := [], error := some (.dateParseError s) }) ∧
    (input.dueDate = none → ∀ opts, buildOptions input now = .ok opts →
      opts.dueDate = none) := by
  refine ⟨?_, ?_, ?_⟩
  · intro opts hok
    cases hd : input.dueDate with
    | none =>
      simp only [buildOptions, hd] at hok
      injection hok with h
      subst h
      rfl
    | some s =>
      simp only [buildOptions, hd] at hok
      cases hn : normalizeDueDate s with
      | none =>
        simp only [hn] at hok
        cases hok
      | some d =>
        simp only [hn] at hok
        injection hok with h
        subst h
        simp [mkIssueOptions, hn]
  · intro s hd hn
    simp only [handler, buildOptions, hd, hn]
  · intro hd opts hok
    simp only [buildOptions, hd] at hok
    injection hok with h
    subst h
    rfl

/-- Witness for C7: the spec's scenario `dueDate = "1990-08-20T23:59:59Z"`
is normalized to `"1990-08-20T23:59:59.000Z"` in the client call options,
and an unparsable `dueDate` fails with no client call and no output. -/
theorem handler_dueDate_normalization_witness :
    IssueOptions.dueDate
        { issueType := none, description := "", assigneeIds := [],
          confidential := false, epicId := none, labels := "",
          createdAt := "1988-06-03T12:00:00.000Z",
          dueDate := some "1990-08-20T23:59:59.000Z",
          discussionToResolve := "",
          mergeRequestToResolveDiscussionsOf := none, milestoneId := none,
          weight := none }
      = (Option.some "1990-08-20T23:59:59Z").bind normalizeDueDate ∧
    handler { repoUrl := "gitlab.com?repo=repo&owner=owner",
              projectId := 123, title := "T", dueDate := some "not-a-date" }
        "1988-06-03T12:00:00.000Z" (fun _ _ _ => .ok ⟨42, "u"⟩) =
      { calls := [], outputs := [],
        error := some (.dateParseError "not-a-date") } :=
  ⟨(handler_dueDate_normalization
      { repoUrl := "gitlab.com?repo=repo&owner=owner", projectId := 123,
        title := "T", dueDate := some "1990-08-20T23:59:59Z" }
      "1988-06-03T12:00:00.000Z" (fun _ _ _ => .ok ⟨42, "u"⟩)).1
    { issueType := none, description := "", assigneeIds := [],
      confidential := false, epicId := none, labels := "",
      createdAt := "1988-06-03T12:00:00.000Z",
      dueDate := some "1990-08-20T23:59:59.000Z",
      discussionToResolve := "",
      mergeRequestToResolveDiscussionsOf := none, milestoneId := none,
      weight := none } rfl,
   (handler_dueDate_normalization
      { repoUrl := "gitlab.com?repo=repo&owner=owner", projectId := 123,
        title := "T", dueDate := some "not-a-date" }
      "1988-06-03T12:00:00.000Z" (fun _ _ _ => .ok ⟨42, "u"⟩)).2.1
    "not-a-date" rfl rfl⟩

/-- C8: the handler maps the enumerated `issueType` input to its lowercase
string form in the client call options (the incident variant becomes the
string "incident"); an absent `issueType` passes through as `undefined`. -/
theorem handler_issueType_mapping (input : IssueActionInput) (now : String) :
    (∀ opts, buildOptions input now = .ok opts →
      opts.issueType = input.issueType.map IssueType.asString) ∧
    IssueType.asString .incident = "incident" ∧
    (input.issueType = none → ∀ opts, buildOptions input now = .ok opts →
      opts.issueType = none) := by
  have key : ∀ opts, buildOptions input now = .ok opts →
      opts.issueType = input.issueType.map IssueType.asString := by
    intro opts hok
    cases hd : input.dueDate with
    | none =>
      simp only [buildOptions, hd] at hok
      injection hok with h
      subst h
      rfl
    | some s =>
      simp only [buildOptions, hd] at hok
      cases hn : normalizeDueDate s with
      | none =>
        simp only [hn] at hok
        cases hok
      | some d =>
        simp only [hn] at hok
        injection hok with h
        subst h
        rfl
  refine ⟨key, rfl, ?_⟩
  intro hi opts hok
  rw [key opts hok, hi]
  rfl

/-- Witness for C8: an input with `issueType := incident` yields the
options field `issueType = some "incident"`. -/
theorem handler_issueType_mapping_witness :
    IssueOptions.issueType
        { issueType := some "incident", description := "", assigneeIds := [],
          confidential := false, epicId := none, labels := "",
          createdAt := "1988-06-03T12:00:00.000Z", dueDate := none,
          discussionToResolve := "",
          mergeRequestToResolveDiscussionsOf := none, milestoneId := none,
          weight := none }
      = (Option.some IssueType.incident).map IssueType.asString :=
  (handler_issueType_mapping
    { repoUrl := "gitlab.com?repo=repo&owner=owner", projectId := 123,
      title := "T", issueType := some .incident }
    "1988-06-03T12:00:00.000Z").1
    { issueType := some "incident", description := "", assigneeIds := [],
      confidential := false, epicId := none, labels := "",
      createdAt := "1988-06-03T12:00:00.000Z", dueDate := none,
      discussionToResolve := "",
      mergeRequestToResolveDiscussionsOf := none, milestoneId := none,
      weight := none } rfl

/-- C9: when the client's create call rejects, the handler propagates the
rejection, still having made exactly one client call (no retry), and emits
no output at all. -/
theorem handler_client_rejection (input : IssueActionInput) (now : String)
    (e : String) (opts : IssueOptions)
    (h : buildOptions input now = .ok opts) :
    handler input now (fun _ _ _ => .error e) =
      { calls := [⟨input.projectId, input.title, opts⟩], outputs := [],
        error := some (.clientError e) } := by
  rw [handler, h]

/-- Witness for C9: a rejecting client on the minimal input. -/
theorem handler_client_rejection_witness :
    handler { repoUrl := "gitlab.com?repo=repo&owner=owner",
              projectId := 123, title := "T" }
        "1988-06-03T12:00:00.000Z" (fun _ _ _ => .error "boom") =
      { calls := [⟨123, "T",
          { issueType := none, description := "", assigneeIds := [],
            confidential := false, epicId := none, labels := "",
            createdAt := "1988-06-03T12:00:00.000Z", dueDate := none,
            discussionToResolve := "",
            mergeRequestToResolveDiscussionsOf := none, milestoneId := none,
            weight := none }⟩],
        outputs := [], error := some (.clientError "boom") } :=
  handler_client_rejection
    { repoUrl := "gitlab.com?repo=repo&owner=owner", projectId := 123,
      title := "T" }
    "1988-06-03T12:00:00.000Z" "boom"
    { issueType := none, description := "", assigneeIds := [],
      confidential := false, epicId := none, labels := "",
      createdAt := "1988-06-03T12:00:00.000Z", dueDate := none,
      discussionToResolve := "",
      mergeRequestToResolveDiscussionsOf := none, milestoneId := none,
      weight := none } rfl
